import Mathlib

/-!
Verification of the Evalmodel backend services against their specification.

The definitions below are shallow embeddings of the Python services:
* `SMCP` — `backend/app/services/smcp_engine.py` (unified EvalScore,
  model loading fallbacks, computer-vision metrics);
* `Meta` — `backend/app/services/meta_evaluator.py` (dataset health,
  complexity adjustment, verdict);
* `Fair` — `backend/app/services/fairness.py` (fairness analysis);
* `Explain` — `backend/app/services/explainability.py` (explanations).

Python floats are modelled as rationals (`ℚ`), numpy arrays as lists,
dictionaries as association lists, and exceptions as `Except`.
-/

/-- Association-list lookup by string key, mirroring Python `dict` access
(`d[k]` / `d.get(k)`); first binding wins, as Python keys are unique. -/
def lookupQ {α : Type} (key : String) : List (String × α) → Option α
  | [] => none
  | (k, v) :: rest => if key = k then some v else lookupQ key rest

/-- Python `round(x, 2)`: round to two decimal places.  (Python uses
banker's rounding at exact ties; both roundings are within `1/200`.) -/
def round2 (q : ℚ) : ℚ := (round (100 * q) : ℤ) / 100

/-- `needle` occurs at the head of `hay`. -/
def matchesAt : List Char → List Char → Bool
  | [], _ => true
  | _ :: _, [] => false
  | c :: cs, h :: hs => c = h && matchesAt cs hs

/-- Python `needle in hay` on strings, over the character lists. -/
def hasSubstring (needle : List Char) : List Char → Bool
  | [] => matchesAt needle []
  | c :: hs => matchesAt needle (c :: hs) || hasSubstring needle hs

namespace SMCP

/-- Model task types (`ModelType` enum in `schemas.py`). -/
inductive ModelType where
  | classification
  | regression
  | nlp
  | computer_vision
deriving DecidableEq

/-- A metric value in the metrics dictionary: plain number, or a nested
dictionary such as `rouge_score` (`Dict[str, float]`). -/
inductive MVal where
  | num (q : ℚ)
  | dict (d : List (String × ℚ))
deriving DecidableEq

/-- `MetricsResult` pydantic model: all metric fields are optional. -/
structure MetricsResult where
  accuracy : Option ℚ := none
  precision : Option ℚ := none
  «recall» : Option ℚ := none
  f1_score : Option ℚ := none
  mae : Option ℚ := none
  mse : Option ℚ := none
  rmse : Option ℚ := none
  r2_score : Option ℚ := none
  bleu_score : Option ℚ := none
  rouge_score : Option (List (String × ℚ)) := none
  perplexity : Option ℚ := none
  iou : Option ℚ := none
  dice_coefficient : Option ℚ := none
  pixel_accuracy : Option ℚ := none
deriving DecidableEq

/-- `metrics.model_dump(exclude_none=True)`, viewed as the finite map it
denotes: key `k` is present exactly when the corresponding field is not
`None`.  (`calculate_eval_score` only ever looks keys up in this dict, so
its insertion order is irrelevant.) -/
def metricsDict (m : MetricsResult) : String → Option MVal := fun k =>
  if k = "accuracy" then m.accuracy.map MVal.num
  else if k = "precision" then m.precision.map MVal.num
  else if k = "recall" then m.«recall».map MVal.num
  else if k = "f1_score" then m.f1_score.map MVal.num
  else if k = "mae" then m.mae.map MVal.num
  else if k = "mse" then m.mse.map MVal.num
  else if k = "rmse" then m.rmse.map MVal.num
  else if k = "r2_score" then m.r2_score.map MVal.num
  else if k = "bleu_score" then m.bleu_score.map MVal.num
  else if k = "rouge_score" then m.rouge_score.map MVal.dict
  else if k = "perplexity" then m.perplexity.map MVal.num
  else if k = "iou" then m.iou.map MVal.num
  else if k = "dice_coefficient" then m.dice_coefficient.map MVal.num
  else if k = "pixel_accuracy" then m.pixel_accuracy.map MVal.num
  else none

/-- `np.mean(list(value.values()))` for a nested dict value; the scalar
value itself otherwise. -/
def MVal.value : MVal → ℚ
  | .num q => q
  | .dict d => (d.map Prod.snd).sum / d.length

/-- `METRIC_WEIGHTS` table of `SMCPEngine`. -/
def METRIC_WEIGHTS : ModelType → List (String × ℚ)
  | .classification =>
      [("accuracy", 1/4), ("precision", 1/4), ("recall", 1/4), ("f1_score", 1/4)]
  | .regression => [("r2_score", 2/5), ("mae", 3/10), ("rmse", 3/10)]
  | .nlp => [("bleu_score", 2/5), ("rouge_score", 2/5), ("perplexity", 1/5)]
  | .computer_vision => [("accuracy", 3/10), ("iou", 7/20), ("dice_coefficient", 7/20)]

/-- Metric normalisation in `calculate_eval_score`: lower-is-better metrics
are inverted (`1/(1+value)` for nonnegative values, else 0); others are
clamped to `[0, 1]`. -/
def normalizeMetric (name : String) (value : ℚ) : ℚ :=
  if name = "mae" ∨ name = "mse" ∨ name = "rmse" ∨ name = "perplexity" then
    if 0 ≤ value then 1 / (1 + value) else 0
  else
    min (max value 0) 1

/-- The loop of `calculate_eval_score`: walk the weight table, look each
metric up in the dumped dictionary, accumulate the normalised-metric
dictionary and the weighted total. -/
def evalFold (md : String → Option MVal) : List (String × ℚ) → List (String × ℚ) × ℚ
  | [] => ([], 0)
  | (name, w) :: rest =>
      match md name with
      | some v =>
          ((name, normalizeMetric name v.value) :: (evalFold md rest).1,
            normalizeMetric name v.value * w + (evalFold md rest).2)
      | none => evalFold md rest

/-- `EvalScoreResult` pydantic model. -/
structure EvalScoreResult where
  eval_score : ℚ
  normalized_metrics : List (String × ℚ)
  weight_distribution : List (String × ℚ)
deriving DecidableEq

/-- `SMCPEngine.calculate_eval_score`: normalise and weight the metrics for
the model type, scale to 0–100 and round to two decimals. -/
def calculate_eval_score (metrics : MetricsResult) (model_type : ModelType) :
    EvalScoreResult :=
  let weights := METRIC_WEIGHTS model_type
  let r := evalFold (metricsDict metrics) weights
  { eval_score := round2 (r.2 * 100)
    normalized_metrics := r.1
    weight_distribution := weights }

/-- The reconstruction formula of the spec:
`sum(normalized_metrics[k] * weight_distribution[k] for k in weight_distribution)`. -/
def weightedSum (nm wd : List (String × ℚ)) : ℚ :=
  (wd.map (fun p => ((lookupQ p.1 nm).getD 0) * p.2)).sum

/-- The scenario input `{accuracy:0.9, precision:0.85, recall:0.88, f1_score:0.865}`. -/
def exampleMetrics : MetricsResult :=
  { accuracy := some (9/10), precision := some (17/20),
    «recall» := some (22/25), f1_score := some (173/200) }

/-! ### Computer-vision metrics (`SMCPEngine.evaluate_cv`) -/

/-- `np.sum(y_test == y_pred)`: the number of positions at which the two
equal-length label arrays agree. -/
def matchCount (y_test y_pred : List ℤ) : ℕ :=
  ((y_test.zip y_pred).filter (fun q => decide (q.1 = q.2))).length

/-- `sklearn.metrics.accuracy_score`: fraction of exactly matching labels. -/
def accuracy_score (y_true y_pred : List ℤ) : ℚ :=
  (matchCount y_true y_pred : ℚ) / y_true.length

/-- The metric block of `SMCPEngine.evaluate_cv` (after predictions have
been obtained): accuracy, simplified IoU (`intersection = #matches`,
`union = len(y_test)`) and Dice coefficient. -/
def evaluate_cv (y_test y_pred : List ℤ) : MetricsResult :=
  let accuracy : ℚ := accuracy_score y_test y_pred
  let intersection : ℕ := matchCount y_test y_pred
  let union : ℕ := y_test.length
  let iou : ℚ := if union > 0 then (intersection : ℚ) / union else 0
  let dice : ℚ :=
    if y_test.length + y_pred.length > 0 then
      2 * (intersection : ℚ) / (y_test.length + y_pred.length : ℕ)
    else 0
  { pixel_accuracy := some accuracy, iou := some iou, dice_coefficient := some dice }

/-! ### Generic-serialization model loading (`SMCPEngine.load_model`,
sklearn branch) -/

/-- The five deserialization attempts of the sklearn branch of
`load_model`, each modelled by its outcome: a loaded model, or the
exception message it raised. -/
structure SklearnAttempts (M : Type) where
  joblib : Except String M
  pickle_default : Except String M
  pickle_latin1 : Except String M
  pickle_bytes : Except String M
  pickle_fix_imports : Except String M

/-- `SMCPEngine.load_model` for `ModelFramework.SKLEARN`: try joblib, then
standard pickle, then pickle with `encoding='latin1'`, then
`encoding='bytes'`, then `fix_imports=True`; the first success wins, and
if everything fails, raise an error carrying one labelled entry per
attempted strategy (the `errors` list of the code). -/
def load_model_sklearn {M : Type} (a : SklearnAttempts M) : Except (List String) M :=
  match a.joblib with
  | .ok m => .ok m
  | .error e0 =>
    match a.pickle_default with
    | .ok m => .ok m
    | .error e1 =>
      match a.pickle_latin1 with
      | .ok m => .ok m
      | .error e2 =>
        match a.pickle_bytes with
        | .ok m => .ok m
        | .error e3 =>
          match a.pickle_fix_imports with
          | .ok m => .ok m
          | .error e4 =>
            .error ["Joblib: " ++ e0, "Standard pickle: " ++ e1,
              "Latin1 encoding: " ++ e2, "Bytes encoding: " ++ e3,
              "Fix imports: " ++ e4]

/-- A concrete corrupted artifact: every deserialization strategy raises. -/
def corruptAttempts : SklearnAttempts Unit :=
  { joblib := .error "invalid load key"
    pickle_default := .error "invalid load key"
    pickle_latin1 := .error "invalid load key"
    pickle_bytes := .error "invalid load key"
    pickle_fix_imports := .error "invalid load key" }

end SMCP

namespace Meta

/-- `MetaEvaluator._calculate_dataset_health`, with the dataset statistics
read out of the stats dictionary (`n_rows` defaults to 1, `missing_values`
to 0, `n_features` to 1, `imbalance_ratio` to 0.5,
`low_variance_fraction` to 0) passed as arguments.  Start from 100,
subtract the missing-value, class-imbalance, small-sample and low-variance
penalties, clamp into `[0, 100]`. -/
def calculate_dataset_health (n_rows missing_values n_features
    imbalance_ratio low_variance_fraction : ℚ) : ℚ :=
  let score1 : ℚ := 100 -
    (if 0 < n_rows then min (missing_values / (n_rows * n_features) * 100) 30 else 0)
  let score2 : ℚ :=
    if 6/10 < imbalance_ratio then score1 - (imbalance_ratio - 5/10) * 80 else score1
  let score3 : ℚ := if n_rows < 100 then score2 - (1 - n_rows / 100) * 20 else score2
  let score4 : ℚ := score3 - low_variance_fraction * 10
  max 0 (min 100 score4)

/-- The primary train/test metric of
`MetaEvaluator._calculate_complexity_adjustment`:
`metrics.get('f1_score', metrics.get('accuracy', 0))` for classification,
`metrics.get('r2_score', 0)` otherwise. -/
def primaryMetric (m : List (String × ℚ)) (model_type : String) : ℚ :=
  if model_type = "classification" then
    (lookupQ "f1_score" m).getD ((lookupQ "accuracy" m).getD 0)
  else
    (lookupQ "r2_score" m).getD 0

/-- `MetaEvaluator._calculate_complexity_adjustment`: 0 when no train
metrics are supplied (`None` or the empty dict are both falsy in Python);
otherwise penalize `-gap * 100 * 0.3` when the absolute train-test gap on
the primary metric exceeds 0.1, else 0. -/
def calculate_complexity_adjustment (test_metrics : List (String × ℚ))
    (train_metrics : Option (List (String × ℚ))) (model_type : String) : ℚ :=
  match train_metrics with
  | none => 0
  | some t =>
    if t = [] then 0
    else
      let train_metric := primaryMetric t model_type
      let test_metric := primaryMetric test_metrics model_type
      let gap := |train_metric - test_metric|
      if 1/10 < gap then -gap * 100 * (3/10) else 0

/-- The critical substrings of `MetaEvaluator._generate_verdict`. -/
def criticalSubstringList : List String :=
  ["severe", "critical", "negative", "low_accuracy"]

/-- A flag is critical when its name contains one of the critical
substrings (`any(x in f for x in [...])`). -/
def isCriticalFlag (f : String) : Bool :=
  criticalSubstringList.any (fun x => hasSubstring x.data f.data)

/-- The verdict dictionary returned by `_generate_verdict`. -/
structure Verdict where
  status : String
  message : String
  confidence : ℚ
  critical_issues : ℕ
  total_issues : ℕ
deriving DecidableEq

/-- `MetaEvaluator._generate_verdict`: band the meta score into one of four
statuses, then force `needs_improvement` when any critical flag is
present. -/
def generate_verdict (meta_score : ℚ) (flags : List String) : Verdict :=
  let status :=
    if 85 ≤ meta_score then "production_ready"
    else if 70 ≤ meta_score then "production_ready_with_monitoring"
    else if 50 ≤ meta_score then "needs_improvement"
    else "not_recommended"
  let message :=
    if 85 ≤ meta_score then "✅ Model is production-ready with high confidence"
    else if 70 ≤ meta_score then "✅ Model is production-ready but requires monitoring"
    else if 50 ≤ meta_score then "⚠️ Model needs improvements before production"
    else "❌ Model not recommended for production use"
  let critical_flags := flags.filter isCriticalFlag
  { status := if critical_flags = [] then status else "needs_improvement"
    message := if critical_flags = [] then message
      else "⚠️ Critical issues detected - address before deployment"
    confidence := meta_score
    critical_issues := critical_flags.length
    total_issues := flags.length }

end Meta

namespace Fair

/-- `np.unique`: the distinct values of the array, sorted ascending. -/
def sortedUnique (l : List ℤ) : List ℤ :=
  List.insertionSort (· ≤ ·) l.dedup

/-- `y[sensitive_attr == group]`: the entries of `y` at the positions
where the sensitive attribute equals `g`. -/
def maskSelect (sens y : List ℤ) (g : ℤ) : List ℤ :=
  ((sens.zip y).filter (fun p => decide (p.1 = g))).map Prod.snd

/-- `np.mean` of an integer label array, as a rational. -/
def meanZ (l : List ℤ) : ℚ := (l.sum : ℚ) / l.length

/-- `np.mean(y_pred_g) if len(y_pred_g) > 0 else 0`: the group's
positive-prediction rate (mean of 0/1 predicted labels). -/
def positiveRate (sens y_pred : List ℤ) (g : ℤ) : ℚ :=
  let yp := maskSelect sens y_pred g
  if 0 < yp.length then meanZ yp else 0

/-- Mean prediction over the members of group `g` whose true label is `c`
(`np.mean(y_pred_g[y_true_g == c])`, 0 when no such member): `c = 1`
gives the TPR, `c = 0` the FPR of `_compute_fairness_metrics`. -/
def condRate (sens y_true y_pred : List ℤ) (g c : ℤ) : ℚ :=
  let yt := maskSelect sens y_true g
  let yp := maskSelect sens y_pred g
  let sel := ((yt.zip yp).filter (fun p => decide (p.1 = c))).map Prod.snd
  if 0 < sel.length then meanZ sel else 0

/-- `#{i | y_true[i] = a ∧ y_pred[i] = b}`: one cell of the confusion
matrix with labels `[0, 1]`. -/
def countPair (yt yp : List ℤ) (a b : ℤ) : ℕ :=
  ((yt.zip yp).filter (fun p => decide (p.1 = a ∧ p.2 = b))).length

/-- `sklearn.metrics.precision_score(..., zero_division=0)` for binary
labels with positive label 1. -/
def precisionScore (yt yp : List ℤ) : ℚ :=
  let tp := countPair yt yp 1 1
  let predpos := ((yt.zip yp).filter (fun p => decide (p.2 = 1))).length
  if 0 < predpos then (tp : ℚ) / predpos else 0

/-- `sklearn.metrics.recall_score(..., zero_division=0)`. -/
def recallScore (yt yp : List ℤ) : ℚ :=
  let tp := countPair yt yp 1 1
  let pos := ((yt.zip yp).filter (fun p => decide (p.1 = 1))).length
  if 0 < pos then (tp : ℚ) / pos else 0

/-- `sklearn.metrics.f1_score(..., zero_division=0)`:
`2·tp / (2·tp + fp + fn)`, 0 when the denominator vanishes. -/
def f1ScoreBin (yt yp : List ℤ) : ℚ :=
  let tp := countPair yt yp 1 1
  let fp := ((yt.zip yp).filter (fun p => decide (¬ p.1 = 1 ∧ p.2 = 1))).length
  let fn := ((yt.zip yp).filter (fun p => decide (p.1 = 1 ∧ ¬ p.2 = 1))).length
  if 0 < 2 * tp + fp + fn then (2 * tp : ℚ) / (2 * tp + fp + fn : ℕ) else 0

/-- One entry of the per-group metric list of `_compute_group_metrics`. -/
structure GroupMetrics where
  group : ℤ
  sample_count : ℕ
  accuracy : ℚ
  precision : ℚ
  «recall» : ℚ
  f1_score : ℚ
  true_positive_rate : ℚ
  false_positive_rate : ℚ
  positive_prediction_rate : ℚ
  true_positives : ℕ
  false_positives : ℕ
  true_negatives : ℕ
  false_negatives : ℕ
deriving DecidableEq

/-- `FairnessEngine._compute_group_metrics`: per-group confusion counts,
performance metrics and rates; groups with no members are skipped. -/
def computeGroupMetrics (y_true y_pred sens : List ℤ) : List ℤ → List GroupMetrics
  | [] => []
  | g :: gs =>
    let yt := maskSelect sens y_true g
    let yp := maskSelect sens y_pred g
    if yt.length = 0 then computeGroupMetrics y_true y_pred sens gs
    else
      let tn := countPair yt yp 0 0
      let fp := countPair yt yp 0 1
      let fn := countPair yt yp 1 0
      let tp := countPair yt yp 1 1
      { group := g
        sample_count := yt.length
        accuracy := SMCP.accuracy_score yt yp
        precision := precisionScore yt yp
        «recall» := recallScore yt yp
        f1_score := f1ScoreBin yt yp
        true_positive_rate := if 0 < tp + fn then (tp : ℚ) / (tp + fn : ℕ) else 0
        false_positive_rate := if 0 < fp + tn then (fp : ℚ) / (fp + tn : ℕ) else 0
        positive_prediction_rate :=
          if 0 < yp.length then ((tp + fp : ℕ) : ℚ) / yp.length else 0
        true_positives := tp
        false_positives := fp
        true_negatives := tn
        false_negatives := fn } :: computeGroupMetrics y_true y_pred sens gs

/-- `FairnessEngine._compute_fairness_metrics`: compare the first two
groups; empty result when fewer than two groups are supplied. -/
def computeFairnessMetrics (y_true y_pred sens : List ℤ) :
    List ℤ → List (String × ℚ)
  | g0 :: g1 :: _ =>
    let ppr_0 := positiveRate sens y_pred g0
    let ppr_1 := positiveRate sens y_pred g1
    let demographic_parity_diff := |ppr_0 - ppr_1|
    let statistical_parity := 1 - demographic_parity_diff
    let disparate_impact := if 0 < ppr_0 then ppr_1 / ppr_0 else 1
    let tpr_0 := condRate sens y_true y_pred g0 1
    let tpr_1 := condRate sens y_true y_pred g1 1
    let equal_opportunity_diff := |tpr_0 - tpr_1|
    let fpr_0 := condRate sens y_true y_pred g0 0
    let fpr_1 := condRate sens y_true y_pred g1 0
    let equalized_odds_diff := max |tpr_0 - tpr_1| |fpr_0 - fpr_1|
    let precision_0 := precisionScore (maskSelect sens y_true g0) (maskSelect sens y_pred g0)
    let precision_1 := precisionScore (maskSelect sens y_true g1) (maskSelect sens y_pred g1)
    let predictive_parity := 1 - |precision_0 - precision_1|
    [("demographic_parity_difference", demographic_parity_diff),
     ("equal_opportunity_difference", equal_opportunity_diff),
     ("disparate_impact_ratio", disparate_impact),
     ("statistical_parity", statistical_parity),
     ("predictive_parity", predictive_parity),
     ("equalized_odds_difference", equalized_odds_diff)]
  | _ => []

/-- `FairnessEngine._compute_overall_fairness_score`: average the derived
per-metric scores (difference metrics inverted, ratio scored by distance
from 1). -/
def overallFairnessScore (fm : List (String × ℚ)) : ℚ :=
  if fm = [] then 0
  else
    let scores :=
      (match lookupQ "demographic_parity_difference" fm with
        | some v => [1 - min v 1] | none => []) ++
      (match lookupQ "equal_opportunity_difference" fm with
        | some v => [1 - min v 1] | none => []) ++
      (match lookupQ "equalized_odds_difference" fm with
        | some v => [1 - min v 1] | none => []) ++
      (match lookupQ "disparate_impact_ratio" fm with
        | some v => [1 - min |v - 1| 1] | none => []) ++
      (match lookupQ "statistical_parity" fm with
        | some v => [v] | none => []) ++
      (match lookupQ "predictive_parity" fm with
        | some v => [v] | none => [])
    if scores = [] then 0 else scores.sum / scores.length

/-- The result dictionary of `analyze_fairness`. -/
structure FairnessResult where
  fairness_metrics : List (String × ℚ)
  group_metrics : List GroupMetrics
  sensitive_attribute : Option String
  num_groups : ℕ
  analysis_successful : Bool
deriving DecidableEq

/-- `FairnessEngine._empty_result`. -/
def emptyResult : FairnessResult :=
  { fairness_metrics := []
    group_metrics := []
    sensitive_attribute := none
    num_groups := 0
    analysis_successful := false }

/-- `FairnessEngine.analyze_fairness`: empty result unless the task is
classification with at least two distinct sensitive-attribute values;
otherwise group metrics, fairness metrics and the overall score. -/
def analyze_fairness (y_true y_pred sensitive_attr : List ℤ)
    (model_type : String) : FairnessResult :=
  if model_type ≠ "classification" then emptyResult
  else
    let unique_groups := sortedUnique sensitive_attr
    if unique_groups.length < 2 then emptyResult
    else
      let fm := computeFairnessMetrics y_true y_pred sensitive_attr unique_groups
      { fairness_metrics := fm ++ [("overall_fairness_score", overallFairnessScore fm)]
        group_metrics := computeGroupMetrics y_true y_pred sensitive_attr unique_groups
        sensitive_attribute := some "sensitive_feature"
        num_groups := unique_groups.length
        analysis_successful := true }

end Fair

namespace Explain

/-- The result dictionary of `explain_model`; the merged sub-result
payload (feature importance, SHAP summary, sample explanations, …) is
abstracted as `α`. -/
structure ExplainResults (α : Type) where
  payload : Option α
  lime_available : Bool
  shap_available : Bool
  method_used : Option String
  error : Option String
deriving DecidableEq

/-- One run of `explain_model`, described by the outcome of each internal
stage: `Except.error e` models the stage raising exception `e`, `ok none`
models it returning `None`, `ok (some r)` a successful payload. -/
structure ExplainEnv (α : Type) where
  shap_available : Bool
  lime_available : Bool
  shap_result : Except String (Option α)
  lime_result : Except String (Option α)
  basic_result : Except String (Option α)

/-- The base `results` dictionary of `explain_model` before any method
runs. -/
def baseResults {α : Type} (env : ExplainEnv α) : ExplainResults α :=
  { payload := none
    lime_available := env.lime_available
    shap_available := env.shap_available
    method_used := none
    error := none }

/-- The body of the `try` block of `explain_model`: try SHAP, then LIME,
then basic feature importance; an exception anywhere propagates. -/
def explainBody {α : Type} (env : ExplainEnv α) :
    Except String (ExplainResults α) :=
  let tryStage (avail : Bool) (stage : Except String (Option α)) (name : String) :
      Except String (Option (ExplainResults α)) :=
    if avail then
      match stage with
      | .error e => .error e
      | .ok (some r) =>
          .ok (some { baseResults env with payload := some r, method_used := some name })
      | .ok none => .ok none
    else .ok none
  match tryStage env.shap_available env.shap_result "SHAP" with
  | .error e => .error e
  | .ok (some res) => .ok res
  | .ok none =>
    match tryStage env.lime_available env.lime_result "LIME" with
    | .error e => .error e
    | .ok (some res) => .ok res
    | .ok none =>
      match tryStage true env.basic_result "basic" with
      | .error e => .error e
      | .ok (some res) => .ok res
      | .ok none =>
          .ok { baseResults env with error := some "No explainability method available" }

/-- `ExplainabilityEngine.explain_model`: run the body; any exception is
caught and recorded in the `error` field of the returned results. -/
def explain_model {α : Type} (env : ExplainEnv α) : ExplainResults α :=
  match explainBody env with
  | .ok r => r
  | .error e => { baseResults env with error := some e }

/-! ### Feature-importance ranking (`np.argsort(feature_importance)[::-1]`) -/

/-- Ascending comparison of feature indices by importance value, breaking
ties by original index: the order realised by a stable ascending argsort. -/
def ascRel (v : List ℚ) (i j : ℕ) : Prop :=
  v.getD i 0 < v.getD j 0 ∨ (v.getD i 0 = v.getD j 0 ∧ i ≤ j)

instance (v : List ℚ) : DecidableRel (ascRel v) := fun i j =>
  inferInstanceAs (Decidable (v.getD i 0 < v.getD j 0 ∨
    (v.getD i 0 = v.getD j 0 ∧ i ≤ j)))

instance (v : List ℚ) : IsTotal ℕ (ascRel v) := by
  constructor
  intro i j
  unfold ascRel
  rcases lt_trichotomy (v.getD i 0) (v.getD j 0) with h | h | h
  · exact Or.inl (Or.inl h)
  · rcases le_total i j with hij | hij
    · exact Or.inl (Or.inr ⟨h, hij⟩)
    · exact Or.inr (Or.inr ⟨h.symm, hij⟩)
  · exact Or.inr (Or.inl h)

instance (v : List ℚ) : IsTrans ℕ (ascRel v) := by
  constructor
  intro a b c hab hbc
  unfold ascRel at hab hbc ⊢
  rcases hab with h1 | ⟨e1, l1⟩ <;> rcases hbc with h2 | ⟨e2, l2⟩
  · exact Or.inl (h1.trans h2)
  · rw [← e2]; exact Or.inl h1
  · rw [e1]; exact Or.inl h2
  · exact Or.inr ⟨e1.trans e2, l1.trans l2⟩

/-- `np.argsort(v)` (stable, ascending). -/
def argsortAsc (v : List ℚ) : List ℕ :=
  List.insertionSort (ascRel v) (List.range v.length)

/-- `np.argsort(v)[::-1]`: the index order used for the importance
ranking. -/
def argsortDesc (v : List ℚ) : List ℕ := (argsortAsc v).reverse

/-- One entry of the `importance_list` built by the explainability
engine. -/
structure RankedFeature where
  feature : String
  importance : ℚ
  rank : ℕ
deriving DecidableEq

/-- The `importance_list` construction:
`{"feature": feature_names[i], "importance": v[i], "rank": rank+1}` for
`rank, i in enumerate(sorted_indices)`. -/
def importanceList (names : List String) (v : List ℚ) : List RankedFeature :=
  (argsortDesc v).enum.map (fun p => ⟨names.getD p.2 "", v.getD p.2 0, p.1 + 1⟩)

end Explain

theorem round2_close (q : ℚ) : |round2 q - q| ≤ 1 / 200 := by
  have h : |100 * q - (round (100 * q) : ℚ)| ≤ 1 / 2 := abs_sub_round (100 * q)
  have e : round2 q - q = ((round (100 * q) : ℚ) - 100 * q) / 100 := by
    rw [round2]; ring
  rw [e, abs_div, abs_sub_comm]
  have h100 : |(100 : ℚ)| = 100 := by norm_num
  rw [h100]
  linarith

/-- Strings with distinct first characters stay distinct under appending
arbitrary suffixes. -/
theorem append_ne_of_head {c d : Char} (a b x y : String)
    (h1 : a.data.head? = some c) (h2 : b.data.head? = some d) (h3 : c ≠ d) :
    a ++ x ≠ b ++ y := by
  intro he
  have hd : a.data ++ x.data = b.data ++ y.data := congrArg String.data he
  cases la : a.data with
  | nil => rw [la] at h1; cases h1
  | cons c0 as =>
    cases lb : b.data with
    | nil => rw [lb] at h2; cases h2
    | cons d0 bs =>
      rw [la] at h1
      rw [lb] at h2
      rw [la, lb] at hd
      simp only [List.cons_append, List.cons.injEq] at hd
      simp only [List.head?_cons, Option.some.injEq] at h1 h2
      exact h3 (h1 ▸ h2 ▸ hd.1)

/-- C1: for every classification metrics input with all four weighted
fields present, the returned `eval_score` agrees with
`100 * Σ_k normalized_metrics[k] * weight_distribution[k]` to rounding
tolerance; and on the scenario input
`{accuracy:0.9, precision:0.85, recall:0.88, f1_score:0.865}` the unified
score is `87.38 ≈ 87.4`. -/
theorem C1_eval_score_formula :
    (∀ (m : SMCP.MetricsResult) (a p r f : ℚ),
      m.accuracy = some a → m.precision = some p → m.«recall» = some r →
      m.f1_score = some f →
      let res := SMCP.calculate_eval_score m SMCP.ModelType.classification
      |res.eval_score -
        100 * SMCP.weightedSum res.normalized_metrics res.weight_distribution| ≤ 1 / 200) ∧
    ((SMCP.calculate_eval_score SMCP.exampleMetrics SMCP.ModelType.classification).eval_score
        = 8738 / 100 ∧
      |(SMCP.calculate_eval_score SMCP.exampleMetrics
          SMCP.ModelType.classification).eval_score - 874 / 10| ≤ 1 / 20) := by
  constructor
  · intro m a p r f ha hp hr hf
    simp only [SMCP.calculate_eval_score, SMCP.METRIC_WEIGHTS, SMCP.evalFold,
      SMCP.metricsDict, SMCP.weightedSum, ha, hp, hr, hf, Option.map_some',
      lookupQ, List.map, List.sum_cons, List.sum_nil, SMCP.MVal.value,
      String.reduceEq, reduceIte, Option.getD_some]
    have key : ∀ q : ℚ, |round2 q - q| ≤ 1 / 200 := round2_close
    have harr :
        100 * (SMCP.normalizeMetric "accuracy" a * (1/4) +
          (SMCP.normalizeMetric "precision" p * (1/4) +
            (SMCP.normalizeMetric "recall" r * (1/4) +
              (SMCP.normalizeMetric "f1_score" f * (1/4) + 0)))) =
        (SMCP.normalizeMetric "accuracy" a * (1/4) +
          (SMCP.normalizeMetric "precision" p * (1/4) +
            (SMCP.normalizeMetric "recall" r * (1/4) +
              (SMCP.normalizeMetric "f1_score" f * (1/4) + 0)))) * 100 := by ring
    rw [harr]
    exact key _
  · have hval :
        (SMCP.calculate_eval_score SMCP.exampleMetrics
          SMCP.ModelType.classification).eval_score = 8738 / 100 := by
      simp only [SMCP.calculate_eval_score, SMCP.METRIC_WEIGHTS, SMCP.evalFold,
        SMCP.metricsDict, SMCP.exampleMetrics, Option.map_some', lookupQ,
        SMCP.MVal.value, SMCP.normalizeMetric, String.reduceEq, reduceIte]
      rw [round2]
      norm_num [round_eq]
    refine ⟨hval, ?_⟩
    rw [hval]
    norm_num [abs_le]

/-- Witness for C1 at a concrete input discharging the hypotheses. -/
theorem C1_eval_score_formula_witness :
    |(SMCP.calculate_eval_score SMCP.exampleMetrics SMCP.ModelType.classification).eval_score -
      100 * SMCP.weightedSum
        (SMCP.calculate_eval_score SMCP.exampleMetrics
          SMCP.ModelType.classification).normalized_metrics
        (SMCP.calculate_eval_score SMCP.exampleMetrics
          SMCP.ModelType.classification).weight_distribution| ≤ 1 / 200 :=
  C1_eval_score_formula.1 SMCP.exampleMetrics (9/10) (17/20) (22/25) (173/200)
    rfl rfl rfl rfl

/-- C2 counterexample: on an artifact that every strategy fails to load,
the raised error contains five failure entries (joblib is attempted before
the four pickle variants), not four as claimed. -/
theorem C2_counterexample :
    SMCP.load_model_sklearn SMCP.corruptAttempts =
      Except.error ["Joblib: invalid load key", "Standard pickle: invalid load key",
        "Latin1 encoding: invalid load key", "Bytes encoding: invalid load key",
        "Fix imports: invalid load key"] ∧
    ¬ (["Joblib: invalid load key", "Standard pickle: invalid load key",
        "Latin1 encoding: invalid load key", "Bytes encoding: invalid load key",
        "Fix imports: invalid load key"] : List String).length = 4 :=
  ⟨rfl, by decide⟩

/-- C2 (amended): when every deserialization strategy fails, `load_model`
attempts exactly five strategies in order (joblib, default pickle,
latin1-encoding, bytes-encoding, fix-imports) and raises a load error
containing five distinct failure entries, one per attempted strategy. -/
theorem C2_load_error_entries {M : Type} (a : SMCP.SklearnAttempts M)
    (e0 e1 e2 e3 e4 : String)
    (h0 : a.joblib = .error e0) (h1 : a.pickle_default = .error e1)
    (h2 : a.pickle_latin1 = .error e2) (h3 : a.pickle_bytes = .error e3)
    (h4 : a.pickle_fix_imports = .error e4) :
    SMCP.load_model_sklearn a =
      Except.error ["Joblib: " ++ e0, "Standard pickle: " ++ e1,
        "Latin1 encoding: " ++ e2, "Bytes encoding: " ++ e3,
        "Fix imports: " ++ e4] ∧
    (["Joblib: " ++ e0, "Standard pickle: " ++ e1, "Latin1 encoding: " ++ e2,
      "Bytes encoding: " ++ e3, "Fix imports: " ++ e4] : List String).length = 5 ∧
    (["Joblib: " ++ e0, "Standard pickle: " ++ e1, "Latin1 encoding: " ++ e2,
      "Bytes encoding: " ++ e3, "Fix imports: " ++ e4] : List String).Nodup := by
  refine ⟨?_, rfl, ?_⟩
  · simp only [SMCP.load_model_sklearn, h0, h1, h2, h3, h4]
  · simp only [List.nodup_cons, List.mem_cons, List.mem_singleton, not_or,
      List.not_mem_nil, not_false_eq_true, and_true, List.nodup_nil]
    repeat' apply And.intro
    all_goals first
      | trivial
      | exact append_ne_of_head _ _ _ _ rfl rfl (by decide)

/-- Witness for C2: the amended statement at the concrete corrupted
artifact. -/
theorem C2_load_error_entries_witness :
    SMCP.load_model_sklearn SMCP.corruptAttempts =
      Except.error ["Joblib: " ++ "invalid load key",
        "Standard pickle: " ++ "invalid load key",
        "Latin1 encoding: " ++ "invalid load key",
        "Bytes encoding: " ++ "invalid load key",
        "Fix imports: " ++ "invalid load key"] ∧
    (["Joblib: " ++ "invalid load key", "Standard pickle: " ++ "invalid load key",
      "Latin1 encoding: " ++ "invalid load key",
      "Bytes encoding: " ++ "invalid load key",
      "Fix imports: " ++ "invalid load key"] : List String).length = 5 ∧
    (["Joblib: " ++ "invalid load key", "Standard pickle: " ++ "invalid load key",
      "Latin1 encoding: " ++ "invalid load key",
      "Bytes encoding: " ++ "invalid load key",
      "Fix imports: " ++ "invalid load key"] : List String).Nodup :=
  C2_load_error_entries SMCP.corruptAttempts
    "invalid load key" "invalid load key" "invalid load key"
    "invalid load key" "invalid load key" rfl rfl rfl rfl rfl

/-- C10: for non-empty equal-length label lists, the computer-vision
metrics coincide: `iou = dice_coefficient = pixel_accuracy`, all equal to
the exact-match fraction. -/
theorem C10_cv_metrics_coincide (yt yp : List ℤ)
    (hne : yt ≠ []) (hlen : yt.length = yp.length) :
    (SMCP.evaluate_cv yt yp).iou =
      some ((SMCP.matchCount yt yp : ℚ) / (yt.length : ℚ)) ∧
    (SMCP.evaluate_cv yt yp).dice_coefficient = (SMCP.evaluate_cv yt yp).iou ∧
    (SMCP.evaluate_cv yt yp).pixel_accuracy = (SMCP.evaluate_cv yt yp).iou := by
  have hn : 0 < yt.length := List.length_pos.mpr hne
  have hsum : 0 < yt.length + yp.length := by omega
  have hcast : ((yt.length + yp.length : ℕ) : ℚ) = 2 * (yt.length : ℚ) := by
    rw [← hlen]; push_cast; ring
  simp only [SMCP.evaluate_cv, SMCP.accuracy_score, if_pos hn, if_pos hsum]
  refine ⟨trivial, ?_, trivial⟩
  rw [hcast]
  congr 1
  exact mul_div_mul_left _ _ two_ne_zero

/-- Witness for C10 at concrete label lists. -/
theorem C10_cv_metrics_coincide_witness :
    (SMCP.evaluate_cv [0, 1] [0, 0]).iou =
      some ((SMCP.matchCount [0, 1] [0, 0] : ℚ) / (([0, 1] : List ℤ).length : ℚ)) ∧
    (SMCP.evaluate_cv [0, 1] [0, 0]).dice_coefficient =
      (SMCP.evaluate_cv [0, 1] [0, 0]).iou ∧
    (SMCP.evaluate_cv [0, 1] [0, 0]).pixel_accuracy =
      (SMCP.evaluate_cv [0, 1] [0, 0]).iou :=
  C10_cv_metrics_coincide [0, 1] [0, 0] (by decide) (by decide)

/-- C3: the verdict status is the score band (≥85 production_ready,
≥70 production_ready_with_monitoring, ≥50 needs_improvement, else
not_recommended), and any flag containing a critical substring forces the
status to needs_improvement regardless of the band. -/
theorem C3_verdict_bands (score : ℚ) (flags : List String) :
    ((∃ f ∈ flags, Meta.isCriticalFlag f) →
      (Meta.generate_verdict score flags).status = "needs_improvement") ∧
    ((∀ f ∈ flags, ¬ Meta.isCriticalFlag f) →
      ((85 ≤ score → (Meta.generate_verdict score flags).status = "production_ready") ∧
       (70 ≤ score → score < 85 →
         (Meta.generate_verdict score flags).status = "production_ready_with_monitoring") ∧
       (50 ≤ score → score < 70 →
         (Meta.generate_verdict score flags).status = "needs_improvement") ∧
       (score < 50 →
         (Meta.generate_verdict score flags).status = "not_recommended"))) := by
  constructor
  · rintro ⟨f, hf, hcrit⟩
    have hne : flags.filter Meta.isCriticalFlag ≠ [] := by
      intro hnil
      have := List.filter_eq_nil_iff.mp hnil f hf
      exact this hcrit
    simp only [Meta.generate_verdict, if_neg hne]
  · intro hall
    have hnil : flags.filter Meta.isCriticalFlag = [] :=
      List.filter_eq_nil_iff.mpr (fun a ha => by simpa using hall a ha)
    simp only [Meta.generate_verdict, hnil, reduceIte]
    refine ⟨?_, ?_, ?_, ?_⟩
    · intro h1
      rw [if_pos h1]
    · intro h1 h2
      rw [if_neg (show ¬ (85 : ℚ) ≤ score by linarith), if_pos h1]
    · intro h1 h2
      rw [if_neg (show ¬ (85 : ℚ) ≤ score by linarith),
        if_neg (show ¬ (70 : ℚ) ≤ score by linarith), if_pos h1]
    · intro h1
      rw [if_neg (show ¬ (85 : ℚ) ≤ score by linarith),
        if_neg (show ¬ (70 : ℚ) ≤ score by linarith),
        if_neg (show ¬ (50 : ℚ) ≤ score by linarith)]

/-- Witness for C3: a critical flag forces needs_improvement even at a
production-ready score. -/
theorem C3_verdict_bands_witness :
    (Meta.generate_verdict 90 ["negative_r2_warning"]).status = "needs_improvement" :=
  (C3_verdict_bands 90 ["negative_r2_warning"]).1
    ⟨"negative_r2_warning", by simp, by decide⟩

/-- C4 counterexample: with regression train metric 0.9 and test R² −2, the
gap exceeds 0.1 but the adjustment is −87, below the claimed −30 lower
bound. -/
theorem C4_counterexample :
    Meta.calculate_complexity_adjustment [("r2_score", -2)]
      (some [("r2_score", 9/10)]) "regression" = -87 ∧
    (1/10 : ℚ) < |(9/10 : ℚ) - (-2)| ∧
    Meta.calculate_complexity_adjustment [("r2_score", -2)]
      (some [("r2_score", 9/10)]) "regression" < -30 := by
  have habs : |(9/10 : ℚ) - (-2)| = 29/10 := by
    rw [abs_of_pos] <;> norm_num
  have hmain : Meta.calculate_complexity_adjustment [("r2_score", -2)]
      (some [("r2_score", 9/10)]) "regression" = -87 := by
    simp only [Meta.calculate_complexity_adjustment, Meta.primaryMetric, lookupQ,
      String.reduceEq, reduceIte, Option.getD_some]
    rw [if_neg (by decide), habs, if_pos (by norm_num)]
    norm_num
  exact ⟨hmain, by rw [habs]; norm_num, by rw [hmain]; norm_num⟩

/-- C4 (amended): the complexity adjustment is 0 when train metrics are
absent (or empty); with train metrics present it is 0 when the absolute
train-test gap on the primary metric is at most 0.1 and exactly
`-30 * gap` when the gap exceeds 0.1 — hence bounded below by −30 only
when the gap is at most 1 (as for metrics confined to `[0,1]`). -/
theorem C4_complexity_adjustment (test : List (String × ℚ))
    (train : Option (List (String × ℚ))) (mt : String) :
    (train = none → Meta.calculate_complexity_adjustment test train mt = 0) ∧
    (train = some [] → Meta.calculate_complexity_adjustment test train mt = 0) ∧
    (∀ t, train = some t → t ≠ [] →
      ((|Meta.primaryMetric t mt - Meta.primaryMetric test mt| ≤ 1/10 →
          Meta.calculate_complexity_adjustment test train mt = 0) ∧
        (1/10 < |Meta.primaryMetric t mt - Meta.primaryMetric test mt| →
          Meta.calculate_complexity_adjustment test train mt =
            -30 * |Meta.primaryMetric t mt - Meta.primaryMetric test mt|) ∧
        (|Meta.primaryMetric t mt - Meta.primaryMetric test mt| ≤ 1 →
          -30 ≤ Meta.calculate_complexity_adjustment test train mt))) := by
  refine ⟨?_, ?_, ?_⟩
  · intro h; subst h; rfl
  · intro h; subst h; rfl
  · intro t ht hne
    subst ht
    simp only [Meta.calculate_complexity_adjustment, if_neg hne]
    have hg0 : (0:ℚ) ≤ |Meta.primaryMetric t mt - Meta.primaryMetric test mt| :=
      abs_nonneg _
    refine ⟨?_, ?_, ?_⟩
    · intro hle; rw [if_neg (not_lt.mpr hle)]
    · intro hlt; rw [if_pos hlt]; ring
    · intro hle1
      split_ifs with h
      · linarith
      · linarith

/-- Witness for C4 at the concrete regression input. -/
theorem C4_complexity_adjustment_witness :
    Meta.calculate_complexity_adjustment [("r2_score", -2)]
      (some [("r2_score", 9/10)]) "regression" =
      -30 * |Meta.primaryMetric [("r2_score", 9/10)] "regression" -
        Meta.primaryMetric [("r2_score", -2)] "regression"| := by
  have h1 : Meta.primaryMetric [("r2_score", 9/10)] "regression" = 9/10 := by
    simp [Meta.primaryMetric, lookupQ]
  have h2 : Meta.primaryMetric [("r2_score", -2)] "regression" = -2 := by
    simp [Meta.primaryMetric, lookupQ]
  refine (((C4_complexity_adjustment [("r2_score", -2)] (some [("r2_score", 9/10)])
    "regression").2.2 [("r2_score", 9/10)] rfl (by decide)).2.1) ?_
  rw [h1, h2, abs_of_pos (by norm_num)]
  norm_num

/-- C5: the dataset health score always lies in `[0, 100]`, and for a
fixed positive row and feature count it is monotonically non-increasing in
the number of missing values (hence in the missing-value ratio). -/
theorem C5_dataset_health (nr mv nf imb lv : ℚ) :
    (0 ≤ Meta.calculate_dataset_health nr mv nf imb lv ∧
      Meta.calculate_dataset_health nr mv nf imb lv ≤ 100) ∧
    (∀ mv' : ℚ, 0 < nr → 0 < nf → mv ≤ mv' →
      Meta.calculate_dataset_health nr mv' nf imb lv ≤
        Meta.calculate_dataset_health nr mv nf imb lv) := by
  constructor
  · unfold Meta.calculate_dataset_health
    exact ⟨le_max_left _ _, max_le (by norm_num) (min_le_left _ _)⟩
  · intro mv' hnr hnf hle
    have hd : 0 < nr * nf := mul_pos hnr hnf
    have h1 : mv / (nr * nf) ≤ mv' / (nr * nf) := by gcongr
    have hp : mv / (nr * nf) * 100 ≤ mv' / (nr * nf) * 100 := by
      exact mul_le_mul_of_nonneg_right h1 (by norm_num)
    have hmin : min (mv / (nr * nf) * 100) 30 ≤ min (mv' / (nr * nf) * 100) 30 :=
      min_le_min hp le_rfl
    unfold Meta.calculate_dataset_health
    rw [if_pos hnr, if_pos hnr]
    apply max_le_max le_rfl
    apply min_le_min le_rfl
    split_ifs <;> linarith

/-- Witness for C5: more missing values do not increase the health score. -/
theorem C5_dataset_health_witness :
    Meta.calculate_dataset_health 200 50 4 (1/2) 0 ≤
      Meta.calculate_dataset_health 200 10 4 (1/2) 0 :=
  (C5_dataset_health 200 10 4 (1/2) 0).2 50 (by norm_num) (by norm_num) (by norm_num)

/-- C6: fairness analysis on a non-classification task, or on a sensitive
attribute with fewer than two distinct values, returns the canonical empty
result: `analysis_successful = False`, empty group and fairness metrics,
`num_groups = 0`. -/
theorem C6_fairness_empty_result (yt yp sens : List ℤ) (mt : String) :
    (mt ≠ "classification" ∨ (Fair.sortedUnique sens).length < 2) →
      Fair.analyze_fairness yt yp sens mt = Fair.emptyResult ∧
      (Fair.analyze_fairness yt yp sens mt).analysis_successful = false ∧
      (Fair.analyze_fairness yt yp sens mt).group_metrics = [] ∧
      (Fair.analyze_fairness yt yp sens mt).fairness_metrics = [] ∧
      (Fair.analyze_fairness yt yp sens mt).num_groups = 0 := by
  intro h
  have he : Fair.analyze_fairness yt yp sens mt = Fair.emptyResult := by
    unfold Fair.analyze_fairness
    by_cases hmt : mt ≠ "classification"
    · rw [if_pos hmt]
    · rcases h with h | h
      · exact absurd h hmt
      · rw [if_neg hmt, if_pos h]
  refine ⟨he, ?_, ?_, ?_, ?_⟩ <;> rw [he] <;> rfl

/-- Witness for C6: a regression task yields the empty fairness result. -/
theorem C6_fairness_empty_result_witness :
    Fair.analyze_fairness [0, 1] [0, 1] [0, 1] "regression" = Fair.emptyResult ∧
    (Fair.analyze_fairness [0, 1] [0, 1] [0, 1] "regression").analysis_successful
      = false ∧
    (Fair.analyze_fairness [0, 1] [0, 1] [0, 1] "regression").group_metrics = [] ∧
    (Fair.analyze_fairness [0, 1] [0, 1] [0, 1] "regression").fairness_metrics = [] ∧
    (Fair.analyze_fairness [0, 1] [0, 1] [0, 1] "regression").num_groups = 0 :=
  C6_fairness_empty_result [0, 1] [0, 1] [0, 1] "regression"
    (Or.inl (by decide))

/-- C7: the disparate-impact ratio is `ppr₁ / ppr₀`, defined as 1 when
`ppr₀ = 0`, and equals exactly 1 whenever the two groups have identical
positive-prediction rates (including both rates 0). -/
theorem C7_disparate_impact (yt yp sens : List ℤ) (g0 g1 : ℤ) (gs : List ℤ) :
    lookupQ "disparate_impact_ratio"
        (Fair.computeFairnessMetrics yt yp sens (g0 :: g1 :: gs)) =
      some (if 0 < Fair.positiveRate sens yp g0 then
        Fair.positiveRate sens yp g1 / Fair.positiveRate sens yp g0 else 1) ∧
    (Fair.positiveRate sens yp g0 = 0 →
      lookupQ "disparate_impact_ratio"
        (Fair.computeFairnessMetrics yt yp sens (g0 :: g1 :: gs)) = some 1) ∧
    (Fair.positiveRate sens yp g0 = Fair.positiveRate sens yp g1 →
      lookupQ "disparate_impact_ratio"
        (Fair.computeFairnessMetrics yt yp sens (g0 :: g1 :: gs)) = some 1) := by
  have hl : lookupQ "disparate_impact_ratio"
      (Fair.computeFairnessMetrics yt yp sens (g0 :: g1 :: gs)) =
      some (if 0 < Fair.positiveRate sens yp g0 then
        Fair.positiveRate sens yp g1 / Fair.positiveRate sens yp g0 else 1) := by
    simp only [Fair.computeFairnessMetrics, lookupQ, String.reduceEq, reduceIte]
  refine ⟨hl, ?_, ?_⟩
  · intro h0
    rw [hl, h0]
    norm_num
  · intro heq
    by_cases hp : 0 < Fair.positiveRate sens yp g0
    · rw [hl, if_pos hp, ← heq, div_self (ne_of_gt hp)]
    · rw [hl, if_neg hp]

/-- Witness for C7 at concrete inputs where both groups have zero positive
rate. -/
theorem C7_disparate_impact_witness :
    lookupQ "disparate_impact_ratio"
      (Fair.computeFairnessMetrics [1, 1] [0, 0] [0, 1] (0 :: 1 :: [])) = some 1 :=
  (C7_disparate_impact [1, 1] [0, 0] [0, 1] 0 1 []).2.2 rfl

/-- C8: `explain_model` never raises — for every run environment it
returns a plain result, equal to the body's result on success, and
carrying the body's exception message in the `error` field otherwise; in
particular an exception inside the SHAP stage is captured in `error`. -/
theorem C8_explain_no_raise {α : Type} (env : Explain.ExplainEnv α) :
    (Explain.explainBody env = Except.ok (Explain.explain_model env) ∨
      ∃ e, Explain.explainBody env = Except.error e ∧
        (Explain.explain_model env).error = some e) ∧
    (∀ e, env.shap_available = true → env.shap_result = Except.error e →
      (Explain.explain_model env).error = some e) := by
  constructor
  · cases h : Explain.explainBody env with
    | ok r => left; simp only [Explain.explain_model, h]
    | error e =>
        right
        exact ⟨e, rfl, by simp only [Explain.explain_model, h]⟩
  · intro e hav hr
    have hb : Explain.explainBody env = Except.error e := by
      simp only [Explain.explainBody, hav, hr, reduceIte]
    simp only [Explain.explain_model, hb]

/-- Witness for C8: a SHAP-stage exception ends up in the error field. -/
theorem C8_explain_no_raise_witness :
    (Explain.explain_model (α := Unit)
      ⟨true, false, Except.error "boom", Except.ok none, Except.ok none⟩).error =
      some "boom" :=
  (C8_explain_no_raise
    ⟨true, false, Except.error "boom", Except.ok none, Except.ok none⟩).2
    "boom" rfl rfl

/-- C9 counterexample: with two features of equal importance, the ranking
gives rank 1 to the later-indexed feature (`f1`), not to the
earlier-indexed one as a stable descending order would. -/
theorem C9_counterexample :
    Explain.importanceList ["f0", "f1"] [1, 1] =
      [⟨"f1", 1, 1⟩, ⟨"f0", 1, 2⟩] ∧
    ¬ Explain.importanceList ["f0", "f1"] [1, 1] =
      [⟨"f0", 1, 1⟩, ⟨"f1", 1, 2⟩] := by
  constructor
  · decide
  · decide

/-- C9 (amended): the ranking lists every feature index exactly once in
weakly-descending importance order, but ties are broken by descending
original index — the later-indexed of two equally-important features gets
the better rank (the ascending stable argsort is reversed). -/
theorem C9_feature_ranking (v : List ℚ) :
    (Explain.argsortDesc v).Perm (List.range v.length) ∧
    List.Pairwise (fun i j => v.getD j 0 < v.getD i 0 ∨
      (v.getD i 0 = v.getD j 0 ∧ j < i)) (Explain.argsortDesc v) := by
  have hperm : (Explain.argsortAsc v).Perm (List.range v.length) :=
    List.perm_insertionSort _ _
  have hnodup : (Explain.argsortAsc v).Nodup :=
    hperm.nodup_iff.mpr (List.nodup_range _)
  have hsorted : List.Pairwise (Explain.ascRel v) (Explain.argsortAsc v) :=
    List.sorted_insertionSort _ _
  constructor
  · exact (List.reverse_perm _).trans hperm
  · rw [Explain.argsortDesc, List.pairwise_reverse]
    have hand := hsorted.and hnodup
    apply hand.imp
    intro a b hab
    rcases hab with ⟨hasc, hne⟩
    rcases hasc with h | ⟨he, hle⟩
    · exact Or.inl h
    · exact Or.inr ⟨he.symm, lt_of_le_of_ne hle hne⟩
